import Mathlib

/-!
Shallow embedding of the `SmartAIRouter` program (`smart_router.py`) of the
ai-router-system repository, together with theorems settling the spec claims.

Modelling conventions:
* Python `float` amounts (budget, costs) are modelled as exact rationals `ℚ`.
* Python strings are Lean `String`s; Python string comparison (`sorted`) is
  code-point lexicographic order, modelled by the executable `lexLe` on the
  underlying character lists; Python `a in b` substring tests are modelled by
  the executable `pySubstr` on character lists; `str.lower()` is modelled by
  mapping `Char.toLower` (the keywords involved are ASCII).
* The persisted budget-tracker JSON object is modelled as an association list
  `Ledger` in insertion order (Python dicts preserve insertion order);
  persisting the file is modelled by returning the new ledger value.
* Network effects are modelled by oracle parameters of type `CallOutcome`
  describing what the backend HTTP call would return if performed; the list of
  backend invocations actually performed is returned as a `CallEvent` trace.
* Result dictionaries with optional keys are modelled by `RouteResult`, whose
  optional fields are `Option`s (`none` = key absent).
-/

set_option maxRecDepth 8000

namespace SmartRouter

/-- One month's entry of the persisted budget tracker:
`{"spent": float, "requests": int}`. -/
structure BudgetEntry where
  spent : ℚ
  requests : ℕ
deriving Repr, DecidableEq

/-- The persisted budget tracker: month key (e.g. "2025-01") ↦ entry,
in insertion order, as a Python dict. -/
abbrev Ledger := List (String × BudgetEntry)

/-- The router configuration (`load_config`'s fields that the routing and
budget logic read). -/
structure Config where
  claude_api_key : String
  ollama_base_url : String
  monthly_budget : ℚ
  warning_threshold : ℚ
  escalation_keywords : List String
  ollama_keywords : List String
  cost_per_input_token : ℚ
  cost_per_output_token : ℚ
deriving Repr, DecidableEq

/-- The `default_config` dictionary of `load_config`. -/
def default_config : Config where
  claude_api_key := ""
  ollama_base_url := "http://localhost:11434"
  monthly_budget := 5
  warning_threshold := 4
  escalation_keywords :=
    ["architecture", "design", "system", "complex", "ASPICE",
     "compliance", "review", "analysis", "strategy", "planning"]
  ollama_keywords :=
    ["code", "refactor", "test", "debug", "simple", "function",
     "fix", "error", "variable", "loop", "class"]
  cost_per_input_token := 3 / 1000000
  cost_per_output_token := 15 / 1000000

/-- Code-point lexicographic order on character lists; this is the order
Python's `sorted` uses on strings. -/
def lexLe : List Char → List Char → Bool
  | [], _ => true
  | _ :: _, [] => false
  | a :: as, b :: bs =>
    if a.toNat < b.toNat then true
    else if b.toNat < a.toNat then false
    else lexLe as bs

/-- Python's `a <= b` on strings, as a decidable proposition. -/
def strLe (a b : String) : Prop := lexLe a.data b.data = true

instance : DecidableRel strLe := fun _ _ => instDecidableEqBool _ _

/-- `pat` is a prefix of `hay` (character lists, by `==` on `Char`). -/
def pyStartsWith : List Char → List Char → Bool
  | [], _ => true
  | _ :: _, [] => false
  | a :: as, b :: bs => a == b && pyStartsWith as bs

/-- Python's `pat in hay` contiguous-substring test on strings, over the
underlying character lists. -/
def pySubstr (pat : List Char) : List Char → Bool
  | [] => pat.isEmpty
  | b :: bs => pyStartsWith pat (b :: bs) || pySubstr pat bs

/-- Python's `s.lower()` as a character list (ASCII lowering). -/
def toLowerData (s : String) : List Char := s.data.map Char.toLower

/-- The keyword test of `should_escalate_to_claude`:
`keyword in prompt.lower()`. The keyword itself is NOT lowered. -/
def code_kw_match (prompt kw : String) : Bool :=
  pySubstr kw.data (toLowerData prompt)

/-- Modelled from the spec: "case-insensitive substring match" of a keyword
against the prompt, lowering BOTH sides, as claim C2 reads it. -/
def spec_ci_match (prompt kw : String) : Bool :=
  pySubstr (kw.data.map Char.toLower) (toLowerData prompt)

/-- The dictionary returned by `get_budget_status`. -/
structure BudgetStatus where
  current_month : String
  spent : ℚ
  requests : ℕ
  budget : ℚ
  remaining : ℚ
  budget_data : Ledger
deriving Repr, DecidableEq

/-- `get_budget_status`: load the ledger, insert a zeroed entry for the
current month if absent (Python dict insertion appends), and report the
current month's numbers plus `remaining = budget - spent`. -/
def get_budget_status (cfg : Config) (current_month : String) (ledger : Ledger) :
    BudgetStatus :=
  let budget_data :=
    if (ledger.lookup current_month).isSome then ledger
    else ledger ++ [(current_month, ⟨0, 0⟩)]
  let e := (budget_data.lookup current_month).getD ⟨0, 0⟩
  { current_month := current_month
    spent := e.spent
    requests := e.requests
    budget := cfg.monthly_budget
    remaining := cfg.monthly_budget - e.spent
    budget_data := budget_data }

/-- In-place mutation of one key's entry of a Python dict
(`budget_data[current_month]["spent"] += cost` etc.), keys unchanged. -/
def update_entry (l : Ledger) (k : String) (f : BudgetEntry → BudgetEntry) :
    Ledger :=
  l.map fun p => if p.1 = k then (p.1, f p.2) else p

/-- The first half of `update_budget`: add `cost` to the current month's
`spent` and increment its `requests`, on the ledger as completed by
`get_budget_status`. -/
def bump (cfg : Config) (current_month : String) (cost : ℚ) (ledger : Ledger) :
    Ledger :=
  update_entry (get_budget_status cfg current_month ledger).budget_data
    current_month
    (fun e => { spent := e.spent + cost, requests := e.requests + 1 })

/-- `update_budget(cost)`: bump the current month, then keep only
`sorted(keys)[-3:]` (the at most 3 lexicographically greatest month keys),
rebuilding the dict in sorted key order, and persist (modelled by returning
the new ledger). -/
def update_budget (cfg : Config) (current_month : String) (cost : ℚ)
    (ledger : Ledger) : Ledger :=
  let budget_data := bump cfg current_month cost ledger
  let sortedKeys := List.insertionSort strLe (budget_data.map Prod.fst)
  let months_to_keep := sortedKeys.drop (sortedKeys.length - 3)
  months_to_keep.map fun mo => (mo, (budget_data.lookup mo).getD ⟨0, 0⟩)

/-- `should_escalate_to_claude(prompt) -> (bool, str)`: budget gates first,
then force-local keywords, then escalation keywords, then the length check,
else the local default. `True` means the paid (Claude) backend. -/
def should_escalate_to_claude (cfg : Config) (current_month : String)
    (ledger : Ledger) (prompt : String) : Bool × String :=
  let bs := get_budget_status cfg current_month ledger
  if bs.remaining ≤ 0 then
    (false, "Budget erschöpft - Fallback zu Ollama")
  else if bs.remaining < 1/2 then
    (false, "Budget niedrig - Ollama bevorzugt")
  else if cfg.ollama_keywords.any (fun kw => code_kw_match prompt kw) then
    (false, "Einfache Coding-Task - Ollama ausreichend")
  else if cfg.escalation_keywords.any (fun kw => code_kw_match prompt kw) then
    (true, "Komplexe Task - Claude erforderlich")
  else if 1000 < prompt.data.length then
    (true, "Langer Prompt - Claude für bessere Qualität")
  else
    (false, "Standard-Task - Ollama Standard")

/-- What a backend HTTP call would yield if performed: the response text, or
an exception message. -/
inductive CallOutcome where
  | ok (text : String)
  | err (msg : String)
deriving Repr, DecidableEq

/-- The result dictionary of `call_ollama` / `call_claude` / `route_request`;
`Option` fields model keys that may be absent. -/
structure RouteResult where
  success : Bool
  response? : Option String := none
  model? : Option String := none
  cost? : Option ℚ := none
  tokens? : Option (ℕ × ℕ) := none
  error? : Option String := none
  fallback? : Option Bool := none
  routing_reason? : Option String := none
  budget_status? : Option BudgetStatus := none
deriving Repr, DecidableEq

/-- `call_ollama` (default model "mistral"): zero cost and zero token counts
on success; on any exception a failure with `fallback = true`. -/
def call_ollama (outcome : CallOutcome) : RouteResult :=
  match outcome with
  | .ok text =>
    { success := true, response? := some text, model? := some "ollama-mistral",
      cost? := some 0, tokens? := some (0, 0) }
  | .err msg =>
    { success := false, error? := some msg, fallback? := some true }

/-- Token/cost computation of a successful `call_claude`:
`len // 4` tokens on each side, cost = tokens × per-token rates. -/
def claude_cost (cfg : Config) (prompt text : String) : ℚ :=
  (prompt.data.length / 4 : ℕ) * cfg.cost_per_input_token +
    (text.data.length / 4 : ℕ) * cfg.cost_per_output_token

/-- `call_claude(prompt)`: fails immediately (with `fallback = true`) when no
API key is configured (`claude_client is None` iff the key is empty), without
consulting the network oracle; on API success, estimates tokens, computes the
cost, records it via `update_budget`, and returns the success dictionary; on
an API exception, returns a failure with `fallback = true` and the ledger
untouched. Returns the result together with the resulting ledger. -/
def call_claude (cfg : Config) (current_month : String) (outcome : CallOutcome)
    (prompt : String) (ledger : Ledger) : RouteResult × Ledger :=
  if cfg.claude_api_key = "" then
    ({ success := false, error? := some "Claude API key nicht konfiguriert",
       fallback? := some true }, ledger)
  else
    match outcome with
    | .ok text =>
      let input_tokens := prompt.data.length / 4
      let output_tokens := text.data.length / 4
      let cost := claude_cost cfg prompt text
      ({ success := true, response? := some text,
         model? := some "claude-3-sonnet", cost? := some cost,
         tokens? := some (input_tokens, output_tokens) },
       update_budget cfg current_month cost ledger)
    | .err msg =>
      ({ success := false, error? := some msg, fallback? := some true }, ledger)

/-- A record of which backend clients `route_request` actually invoked,
in order. -/
inductive CallEvent where
  | ollamaCall
  | claudeCall
deriving Repr, DecidableEq

/-- The full observable outcome of `route_request`: the returned dictionary,
the resulting persisted ledger, and the backend invocations performed. -/
structure RouteOutput where
  result : RouteResult
  ledger : Ledger
  calls : List CallEvent
deriving Repr, DecidableEq

/-- The backend decision of `route_request`: `force_model == "ollama"` and
`force_model == "claude"` are honored; any other value falls through to
`should_escalate_to_claude`. -/
def routing_decision (cfg : Config) (current_month : String) (ledger : Ledger)
    (prompt : String) (force_model : Option String) : Bool × String :=
  if force_model = some "ollama" then (false, "Erzwungen: Ollama")
  else if force_model = some "claude" then (true, "Erzwungen: Claude")
  else should_escalate_to_claude cfg current_month ledger prompt

/-- `route_request(prompt, force_model)`: decide the backend, invoke it; if
Claude was chosen and failed with `fallback` truthy, invoke Ollama once and
keep its result; if Ollama was chosen and failed, keep the failure (no
fallback exists); finally attach the fresh budget status and the routing
reason to the result dictionary. -/
def route_request (cfg : Config) (current_month : String) (ledger : Ledger)
    (prompt : String) (force_model : Option String)
    (claudeOutcome ollamaOutcome : CallOutcome) : RouteOutput :=
  let dec := routing_decision cfg current_month ledger prompt force_model
  let step : RouteResult × Ledger × List CallEvent :=
    if dec.1 then
      let c := call_claude cfg current_month claudeOutcome prompt ledger
      if !c.1.success && c.1.fallback?.getD false then
        (call_ollama ollamaOutcome, c.2, [.claudeCall, .ollamaCall])
      else
        (c.1, c.2, [.claudeCall])
    else
      (call_ollama ollamaOutcome, ledger, [.ollamaCall])
  { result :=
      { step.1 with
        budget_status? := some (get_budget_status cfg current_month step.2.1)
        routing_reason? := some dec.2 }
    ledger := step.2.1
    calls := step.2.2 }

/-- A configuration identical to the default one but with a credential
configured, as `setup_config` produces; it enables the paid backend. -/
def claudeConfig : Config := { default_config with claude_api_key := "test-key" }

end SmartRouter


namespace SmartRouter

theorem lexLe_total : ∀ as bs : List Char, lexLe as bs = true ∨ lexLe bs as = true
  | [], _ => Or.inl rfl
  | _ :: _, [] => Or.inr rfl
  | a :: as, b :: bs => by
    rcases Nat.lt_trichotomy a.toNat b.toNat with h | h | h
    · exact Or.inl (by simp [lexLe, h])
    · rcases lexLe_total as bs with ih | ih
      · exact Or.inl (by simp [lexLe, h, ih])
      · exact Or.inr (by simp [lexLe, h.symm, ih])
    · exact Or.inr (by simp [lexLe, h])

theorem lexLe_trans : ∀ as bs cs : List Char,
    lexLe as bs = true → lexLe bs cs = true → lexLe as cs = true
  | [], _, _ => fun _ _ => rfl
  | _ :: _, [], _ => by simp [lexLe]
  | _ :: _, _ :: _, [] => by simp [lexLe]
  | a :: as, b :: bs, c :: cs => by
    simp only [lexLe]
    intro h1 h2
    rcases Nat.lt_trichotomy a.toNat b.toNat with hab | hab | hab <;>
      rcases Nat.lt_trichotomy b.toNat c.toNat with hbc | hbc | hbc
    · simp [show a.toNat < c.toNat by omega]
    · simp [show a.toNat < c.toNat by omega]
    · rw [if_neg (by omega), if_pos (by omega)] at h2; cases h2
    · simp [show a.toNat < c.toNat by omega]
    · rw [if_neg (by omega), if_neg (by omega)] at h1 h2
      rw [if_neg (show ¬ a.toNat < c.toNat by omega),
        if_neg (show ¬ c.toNat < a.toNat by omega)]
      exact lexLe_trans as bs cs h1 h2
    · rw [if_neg (by omega), if_pos (by omega)] at h2; cases h2
    · rw [if_neg (by omega), if_pos (by omega)] at h1; cases h1
    · rw [if_neg (by omega), if_pos (by omega)] at h1; cases h1
    · rw [if_neg (by omega), if_pos (by omega)] at h1; cases h1

instance : IsTotal String strLe := ⟨fun a b => lexLe_total a.data b.data⟩

instance : IsTrans String strLe := ⟨fun a b c => lexLe_trans a.data b.data c.data⟩

theorem lookup_append_of_none {β : Type} {l : List (String × β)} {k : String}
    (h : l.lookup k = none) (l' : List (String × β)) :
    (l ++ l').lookup k = l'.lookup k := by
  induction l with
  | nil => simp
  | cons p t ih =>
    obtain ⟨pk, pv⟩ := p
    cases hb : (k == pk) with
    | false =>
      simp only [List.cons_append, List.lookup_cons, hb] at h ⊢
      exact ih h
    | true => simp [List.lookup_cons, hb] at h

theorem lookup_eq_none_iff {β : Type} (l : List (String × β)) (k : String) :
    l.lookup k = none ↔ k ∉ l.map Prod.fst := by
  induction l with
  | nil => simp
  | cons p t ih =>
    obtain ⟨pk, pv⟩ := p
    cases hb : (k == pk) with
    | false =>
      have hne : k ≠ pk := fun he => by simp [he] at hb
      simp [List.lookup_cons, hb, ih, hne]
    | true =>
      have he : k = pk := by simpa using hb
      simp [List.lookup_cons, hb, he]

theorem lookup_isSome_iff {β : Type} (l : List (String × β)) (k : String) :
    (l.lookup k).isSome = true ↔ k ∈ l.map Prod.fst := by
  rcases h : l.lookup k with _ | v
  · simp [(lookup_eq_none_iff l k).mp h]
  · simp only [Option.isSome, true_iff]
    by_contra hk
    rw [(lookup_eq_none_iff l k).mpr hk] at h
    cases h

theorem lookup_update_entry_self (l : Ledger) (k : String)
    (f : BudgetEntry → BudgetEntry) (e : BudgetEntry) (h : l.lookup k = some e) :
    (update_entry l k f).lookup k = some (f e) := by
  induction l with
  | nil => cases h
  | cons p t ih =>
    obtain ⟨pk, pv⟩ := p
    cases hb : (k == pk) with
    | true =>
      have he : k = pk := by simpa using hb
      subst he
      simp only [List.lookup_cons, hb] at h
      have hpe : pv = e := by simpa using h
      subst hpe
      simp [update_entry, List.lookup_cons, hb]
    | false =>
      have hne : ¬ pk = k := fun he => by simp [he] at hb
      simp only [update_entry, List.map_cons]
      rw [if_neg hne]
      simp only [List.lookup_cons, hb] at h ⊢
      exact ih h

theorem map_fst_update_entry (l : Ledger) (k : String)
    (f : BudgetEntry → BudgetEntry) :
    (update_entry l k f).map Prod.fst = l.map Prod.fst := by
  induction l with
  | nil => rfl
  | cons p t ih =>
    simp only [update_entry, List.map_cons] at ih ⊢
    by_cases hc : p.1 = k <;> simp [hc, ih]

theorem lookup_map_self {β : Type} (ks : List String) (f : String → β)
    (k : String) (h : k ∈ ks) :
    (ks.map fun x => (x, f x)).lookup k = some (f k) := by
  induction ks with
  | nil => cases h
  | cons a t ih =>
    cases hb : (k == a) with
    | true =>
      have he : k = a := by simpa using hb
      simp [List.lookup_cons, hb, he]
    | false =>
      have hne : k ≠ a := fun he => by simp [he] at hb
      have ht : k ∈ t := (List.mem_cons.mp h).resolve_left hne
      simp only [List.map_cons, List.lookup_cons, hb]
      exact ih ht

theorem status_lookup (cfg : Config) (m : String) (ledger : Ledger) :
    (get_budget_status cfg m ledger).budget_data.lookup m
      = some ⟨(get_budget_status cfg m ledger).spent,
              (get_budget_status cfg m ledger).requests⟩ := by
  unfold get_budget_status
  rcases h : ledger.lookup m with _ | e
  · simp [h, lookup_append_of_none h, List.lookup_cons]
  · simp [h]

theorem status_keys_nodup (cfg : Config) (m : String) (ledger : Ledger)
    (h : (ledger.map Prod.fst).Nodup) :
    ((get_budget_status cfg m ledger).budget_data.map Prod.fst).Nodup := by
  unfold get_budget_status
  rcases hl : ledger.lookup m with _ | e
  · simp only [hl, Option.isSome, if_false, Bool.false_eq_true, List.map_append]
    rw [List.nodup_append]
    refine ⟨h, by simp, ?_⟩
    intro a ha hb
    simp at hb
    exact (lookup_eq_none_iff ledger m).mp hl (hb ▸ ha)
  · simpa [hl] using h

theorem sorted_take_drop_le (l : List String) (j : ℕ)
    (hs : List.Sorted strLe l) {d r : String}
    (hd : d ∈ l.take j) (hr : r ∈ l.drop j) : strLe d r := by
  have heq := List.take_append_drop j l
  rw [← heq] at hs
  exact (List.pairwise_append.mp hs).2.2 d hd r hr

theorem nodup_take_drop_ne (l : List String) (j : ℕ) (hn : l.Nodup)
    {d r : String} (hd : d ∈ l.take j) (hr : r ∈ l.drop j) : d ≠ r := by
  have heq := List.take_append_drop j l
  rw [← heq] at hn
  exact fun he => (List.nodup_append.mp hn).2.2 hd (he ▸ hr)

end SmartRouter

namespace SmartRouter

/-- Shared helper: any failing `call_claude` has `fallback = true` and leaves
the ledger untouched. -/
theorem call_claude_failure (cfg : Config) (m : String) (co : CallOutcome)
    (prompt : String) (ledger : Ledger)
    (h : (call_claude cfg m co prompt ledger).1.success = false) :
    (call_claude cfg m co prompt ledger).1.fallback? = some true ∧
    (call_claude cfg m co prompt ledger).2 = ledger := by
  by_cases hk : cfg.claude_api_key = ""
  · simp [call_claude, hk]
  · cases co with
    | ok text => simp [call_claude, hk] at h
    | err msg => simp [call_claude, hk]

/-- Claim C1 counterexample: when the routing decision picks the local
backend and the local call fails with `fallback = true`, the paid backend is
NOT invoked (zero calls, not exactly one) and the failure is returned — the
claimed law fails in the local-backend direction. -/
theorem c1_counterexample :
    (route_request default_config "2025-01" [] "hello" (some "ollama")
        (.ok "unused") (.err "connection refused")).calls.count .claudeCall
      = 0 ∧
    (route_request default_config "2025-01" [] "hello" (some "ollama")
        (.ok "unused") (.err "connection refused")).calls = [.ollamaCall] ∧
    (route_request default_config "2025-01" [] "hello" (some "ollama")
        (.ok "unused") (.err "connection refused")).result.success = false ∧
    (route_request default_config "2025-01" [] "hello" (some "ollama")
        (.ok "unused") (.err "connection refused")).result.fallback?
      = some true := by
  refine ⟨?_, ?_, ?_, ?_⟩ <;> decide

/-- Claim C1 as amended: the fallback law holds only in the paid-to-local
direction: if the decision picks the paid backend and its call fails, the
local backend is invoked exactly once and its result (success or failure) is
returned as-is; if the decision picks the local backend, only the local
backend is invoked (once) and its result is returned as-is, with no
fallback. -/
theorem c1_amended_single_hop (cfg : Config) (m : String) (ledger : Ledger)
    (prompt : String) (force : Option String) (co oo : CallOutcome) :
    ((routing_decision cfg m ledger prompt force).1 = true →
      (call_claude cfg m co prompt ledger).1.success = false →
      route_request cfg m ledger prompt force co oo =
        { result := { call_ollama oo with
            budget_status? := some (get_budget_status cfg m ledger),
            routing_reason?
              := some (routing_decision cfg m ledger prompt force).2 },
          ledger := ledger,
          calls := [.claudeCall, .ollamaCall] }) ∧
    ((routing_decision cfg m ledger prompt force).1 = false →
      route_request cfg m ledger prompt force co oo =
        { result := { call_ollama oo with
            budget_status? := some (get_budget_status cfg m ledger),
            routing_reason?
              := some (routing_decision cfg m ledger prompt force).2 },
          ledger := ledger,
          calls := [.ollamaCall] }) := by
  constructor
  · intro h1 h2
    obtain ⟨hf, hl⟩ := call_claude_failure cfg m co prompt ledger h2
    simp [route_request, h1, h2, hf, hl]
  · intro h1
    simp [route_request, h1]

theorem c1_amended_witness :
    route_request default_config "2025-01" [] "hi" (some "claude")
        (.err "api down") (.ok "local answer") =
      { result := { call_ollama (.ok "local answer") with
          budget_status? := some (get_budget_status default_config "2025-01" []),
          routing_reason? := some (routing_decision default_config "2025-01" []
            "hi" (some "claude")).2 },
        ledger := [],
        calls := [.claudeCall, .ollamaCall] } ∧
    route_request default_config "2025-01" [] "hi" (some "ollama")
        (.err "api down") (.err "conn refused") =
      { result := { call_ollama (.err "conn refused") with
          budget_status? := some (get_budget_status default_config "2025-01" []),
          routing_reason? := some (routing_decision default_config "2025-01" []
            "hi" (some "ollama")).2 },
        ledger := [],
        calls := [.ollamaCall] } :=
  ⟨(c1_amended_single_hop _ _ _ _ _ _ _).1 (by decide) (by decide),
   (c1_amended_single_hop _ _ _ _ _ _ _).2 (by decide)⟩

/-- Claim C2 is a code bug: the code lowercases only the prompt, never the
keyword, so the configured force-paid keyword "ASPICE" cannot match; a
prompt containing "aspice" does not match it (the spec's case-insensitive
match on both sides would match), and with the default configuration such a
prompt falls through to the default local branch instead of escalating. -/
theorem c2_keyword_match_not_case_insensitive :
    "ASPICE" ∈ default_config.escalation_keywords ∧
    spec_ci_match "aspice" "ASPICE" = true ∧
    code_kw_match "aspice" "ASPICE" = false ∧
    should_escalate_to_claude default_config "2025-01" [] "aspice"
      = (false, "Standard-Task - Ollama Standard") := by
  refine ⟨by decide, by decide, by decide, ?_⟩
  norm_num [should_escalate_to_claude, get_budget_status, default_config]
  decide

/-- Claim C3: with no forced backend, an exhausted budget (`remaining ≤ 0`)
routes local with the budget-exhausted reason, and a low budget
(`0 < remaining < 0.5`) routes local with the budget-low reason, in both
cases independently of the prompt (budget gates precede keyword and length
checks). -/
theorem c3_budget_gate (cfg : Config) (m : String) (ledger : Ledger)
    (prompt : String) :
    ((get_budget_status cfg m ledger).remaining ≤ 0 →
      should_escalate_to_claude cfg m ledger prompt
        = (false, "Budget erschöpft - Fallback zu Ollama")) ∧
    (0 < (get_budget_status cfg m ledger).remaining →
      (get_budget_status cfg m ledger).remaining < 1/2 →
      should_escalate_to_claude cfg m ledger prompt
        = (false, "Budget niedrig - Ollama bevorzugt")) := by
  constructor
  · intro h
    simp only [should_escalate_to_claude]
    rw [if_pos h]
  · intro h0 hlow
    simp only [should_escalate_to_claude]
    rw [if_neg (not_le.mpr h0), if_pos hlow]

theorem c3_budget_gate_witness :
    should_escalate_to_claude default_config "2025-01"
        [("2025-01", ⟨5, 3⟩)] "design the architecture"
      = (false, "Budget erschöpft - Fallback zu Ollama") ∧
    should_escalate_to_claude default_config "2025-01"
        [("2025-01", ⟨23/5, 7⟩)] "design the architecture"
      = (false, "Budget niedrig - Ollama bevorzugt") :=
  ⟨(c3_budget_gate _ _ _ _).1
      (by norm_num [get_budget_status, List.lookup_cons, default_config]),
   (c3_budget_gate _ _ _ _).2
      (by norm_num [get_budget_status, List.lookup_cons, default_config])
      (by norm_num [get_budget_status, List.lookup_cons, default_config])⟩

/-- Claim C4: a prompt matching a force-local (ollama) keyword is routed
local no matter its length or any force-paid keyword match; when the budget
gates do not fire, the reason is the simple-task one (the local-keyword
check precedes the paid-keyword and length checks). -/
theorem c4_local_keyword_precedence (cfg : Config) (m : String)
    (ledger : Ledger) (prompt : String)
    (h : cfg.ollama_keywords.any (fun kw => code_kw_match prompt kw) = true) :
    (should_escalate_to_claude cfg m ledger prompt).1 = false ∧
    (¬ (get_budget_status cfg m ledger).remaining ≤ 0 →
      ¬ (get_budget_status cfg m ledger).remaining < 1/2 →
      should_escalate_to_claude cfg m ledger prompt
        = (false, "Einfache Coding-Task - Ollama ausreichend")) := by
  constructor
  · simp only [should_escalate_to_claude]
    repeat' split
    all_goals simp_all
  · intro h1 h2
    simp only [should_escalate_to_claude]
    rw [if_neg h1, if_neg h2, if_pos h]

theorem c4_witness :
    (default_config.ollama_keywords.any
        (fun kw => code_kw_match "fix this ASPICE architecture problem" kw))
      = true ∧
    (default_config.escalation_keywords.any
        (fun kw => code_kw_match "fix this ASPICE architecture problem" kw))
      = true ∧
    should_escalate_to_claude default_config "2025-01" []
        "fix this ASPICE architecture problem"
      = (false, "Einfache Coding-Task - Ollama ausreichend") :=
  ⟨by decide, by decide,
   (c4_local_keyword_precedence default_config "2025-01" [] _ (by decide)).2
     (by norm_num [get_budget_status, default_config])
     (by norm_num [get_budget_status, default_config])⟩

end SmartRouter

namespace SmartRouter

/-- Claim C5: `update_budget(cost)` first sets the current month's `spent` to
its previous value plus `cost` and its `requests` to previous plus 1, then
prunes the ledger to `sorted(keys)[-3:]`: the retained keys number
`min 3 n`, carry their updated entries unchanged, and every dropped key is
lexicographically strictly below every retained key. Persistence is a single
whole-record write, modelled by returning the new ledger value. -/
theorem c5_record_and_prune (cfg : Config) (m : String) (c : ℚ)
    (ledger : Ledger) (hnd : (ledger.map Prod.fst).Nodup) :
    (bump cfg m c ledger).lookup m
      = some ⟨(get_budget_status cfg m ledger).spent + c,
              (get_budget_status cfg m ledger).requests + 1⟩ ∧
    ((update_budget cfg m c ledger).map Prod.fst).length
      = min 3 ((bump cfg m c ledger).map Prod.fst).length ∧
    (∀ k ∈ (update_budget cfg m c ledger).map Prod.fst,
      k ∈ (bump cfg m c ledger).map Prod.fst ∧
      (update_budget cfg m c ledger).lookup k
        = (bump cfg m c ledger).lookup k) ∧
    (∀ d ∈ (bump cfg m c ledger).map Prod.fst,
      d ∉ (update_budget cfg m c ledger).map Prod.fst →
      ∀ r ∈ (update_budget cfg m c ledger).map Prod.fst,
        strLe d r ∧ d ≠ r) := by
  have hperm := List.perm_insertionSort strLe
    ((bump cfg m c ledger).map Prod.fst)
  have hsort := List.sorted_insertionSort strLe
    ((bump cfg m c ledger).map Prod.fst)
  have hkeysnd : ((bump cfg m c ledger).map Prod.fst).Nodup := by
    simp only [bump]
    rw [map_fst_update_entry]
    exact status_keys_nodup cfg m ledger hnd
  have hsknd : (List.insertionSort strLe
      ((bump cfg m c ledger).map Prod.fst)).Nodup :=
    hperm.nodup_iff.mpr hkeysnd
  have hres : update_budget cfg m c ledger
      = ((List.insertionSort strLe ((bump cfg m c ledger).map Prod.fst)).drop
          ((List.insertionSort strLe
            ((bump cfg m c ledger).map Prod.fst)).length - 3)).map
          (fun mo => (mo, ((bump cfg m c ledger).lookup mo).getD ⟨0, 0⟩)) :=
    rfl
  have hreskeys : (update_budget cfg m c ledger).map Prod.fst
      = (List.insertionSort strLe ((bump cfg m c ledger).map Prod.fst)).drop
          ((List.insertionSort strLe
            ((bump cfg m c ledger).map Prod.fst)).length - 3) := by
    have hcomp : (Prod.fst ∘ fun mo : String =>
        (mo, ((bump cfg m c ledger).lookup mo).getD ⟨0, 0⟩)) = id :=
      funext fun _ => rfl
    rw [hres, List.map_map, hcomp, List.map_id]
  refine ⟨?_, ?_, ?_, ?_⟩
  · exact lookup_update_entry_self
      (get_budget_status cfg m ledger).budget_data m
      (fun e => { spent := e.spent + c, requests := e.requests + 1 })
      ⟨(get_budget_status cfg m ledger).spent,
        (get_budget_status cfg m ledger).requests⟩
      (status_lookup cfg m ledger)
  · rw [hreskeys, List.length_drop, hperm.length_eq]
    omega
  · intro k hk
    rw [hreskeys] at hk
    have hkkeys : k ∈ (bump cfg m c ledger).map Prod.fst :=
      hperm.mem_iff.mp (List.mem_of_mem_drop hk)
    refine ⟨hkkeys, ?_⟩
    obtain ⟨e, he⟩ := Option.isSome_iff_exists.mp
      ((lookup_isSome_iff (bump cfg m c ledger) k).mpr hkkeys)
    rw [hres, lookup_map_self _ _ k hk, he]
    rfl
  · intro d hd hnotin r hr
    rw [hreskeys] at hnotin hr
    have hdsk : d ∈ List.insertionSort strLe
        ((bump cfg m c ledger).map Prod.fst) := hperm.mem_iff.mpr hd
    have hdsplit : d ∈ (List.insertionSort strLe
          ((bump cfg m c ledger).map Prod.fst)).take
          ((List.insertionSort strLe
            ((bump cfg m c ledger).map Prod.fst)).length - 3)
        ++ (List.insertionSort strLe
          ((bump cfg m c ledger).map Prod.fst)).drop
          ((List.insertionSort strLe
            ((bump cfg m c ledger).map Prod.fst)).length - 3) := by
      rw [List.take_append_drop]
      exact hdsk
    have hdtake := (List.mem_append.mp hdsplit).resolve_right hnotin
    exact ⟨sorted_take_drop_le _ _ hsort hdtake hr,
      nodup_take_drop_ne _ _ hsknd hdtake hr⟩

theorem c5_record_and_prune_witness :
    ((([("2025-08", (⟨1, 1⟩ : BudgetEntry)), ("2025-09", ⟨2, 1⟩),
        ("2025-10", ⟨1, 2⟩)] : Ledger).map Prod.fst).Nodup) ∧
    ((bump default_config "2025-11" 1
        [("2025-08", ⟨1, 1⟩), ("2025-09", ⟨2, 1⟩),
         ("2025-10", ⟨1, 2⟩)]).lookup "2025-11"
      = some ⟨(get_budget_status default_config "2025-11"
                [("2025-08", ⟨1, 1⟩), ("2025-09", ⟨2, 1⟩),
                 ("2025-10", ⟨1, 2⟩)]).spent + 1,
              (get_budget_status default_config "2025-11"
                [("2025-08", ⟨1, 1⟩), ("2025-09", ⟨2, 1⟩),
                 ("2025-10", ⟨1, 2⟩)]).requests + 1⟩ ∧
    ((update_budget default_config "2025-11" 1
        [("2025-08", ⟨1, 1⟩), ("2025-09", ⟨2, 1⟩),
         ("2025-10", ⟨1, 2⟩)]).map Prod.fst).length
      = min 3 ((bump default_config "2025-11" 1
          [("2025-08", ⟨1, 1⟩), ("2025-09", ⟨2, 1⟩),
           ("2025-10", ⟨1, 2⟩)]).map Prod.fst).length ∧
    (∀ k ∈ (update_budget default_config "2025-11" 1
        [("2025-08", ⟨1, 1⟩), ("2025-09", ⟨2, 1⟩),
         ("2025-10", ⟨1, 2⟩)]).map Prod.fst,
      k ∈ (bump default_config "2025-11" 1
        [("2025-08", ⟨1, 1⟩), ("2025-09", ⟨2, 1⟩),
         ("2025-10", ⟨1, 2⟩)]).map Prod.fst ∧
      (update_budget default_config "2025-11" 1
        [("2025-08", ⟨1, 1⟩), ("2025-09", ⟨2, 1⟩),
         ("2025-10", ⟨1, 2⟩)]).lookup k
        = (bump default_config "2025-11" 1
          [("2025-08", ⟨1, 1⟩), ("2025-09", ⟨2, 1⟩),
           ("2025-10", ⟨1, 2⟩)]).lookup k) ∧
    (∀ d ∈ (bump default_config "2025-11" 1
        [("2025-08", ⟨1, 1⟩), ("2025-09", ⟨2, 1⟩),
         ("2025-10", ⟨1, 2⟩)]).map Prod.fst,
      d ∉ (update_budget default_config "2025-11" 1
        [("2025-08", ⟨1, 1⟩), ("2025-09", ⟨2, 1⟩),
         ("2025-10", ⟨1, 2⟩)]).map Prod.fst →
      ∀ r ∈ (update_budget default_config "2025-11" 1
        [("2025-08", ⟨1, 1⟩), ("2025-09", ⟨2, 1⟩),
         ("2025-10", ⟨1, 2⟩)]).map Prod.fst,
        strLe d r ∧ d ≠ r)) :=
  ⟨by decide,
   c5_record_and_prune default_config "2025-11" 1
     [("2025-08", ⟨1, 1⟩), ("2025-09", ⟨2, 1⟩), ("2025-10", ⟨1, 2⟩)]
     (by decide)⟩

end SmartRouter

namespace SmartRouter

/-- Claim C6: without a configured credential `call_claude` fails immediately
with `fallback = true`, independent of the network outcome (the outcome
oracle is unused) and without touching the ledger; any failure leaves the
ledger unchanged with `fallback = true`; and the ledger is updated (via
`update_budget`) only as a side effect of a successful call. -/
theorem c6_failure_semantics (cfg : Config) (m : String) (co : CallOutcome)
    (prompt : String) (ledger : Ledger) :
    (cfg.claude_api_key = "" →
      call_claude cfg m co prompt ledger
        = ({ success := false,
             error? := some "Claude API key nicht konfiguriert",
             fallback? := some true }, ledger)) ∧
    ((call_claude cfg m co prompt ledger).1.success = false →
      (call_claude cfg m co prompt ledger).1.fallback? = some true ∧
      (call_claude cfg m co prompt ledger).2 = ledger) ∧
    (∀ text, co = .ok text → cfg.claude_api_key ≠ "" →
      (call_claude cfg m co prompt ledger).1.success = true ∧
      (call_claude cfg m co prompt ledger).2
        = update_budget cfg m (claude_cost cfg prompt text) ledger) := by
  refine ⟨?_, fun h => call_claude_failure cfg m co prompt ledger h, ?_⟩
  · intro hk
    simp [call_claude, hk]
  · rintro text rfl hk
    simp [call_claude, hk]

theorem c6_witness :
    call_claude default_config "2025-01" (.ok "never sent") "p" []
      = ({ success := false,
           error? := some "Claude API key nicht konfiguriert",
           fallback? := some true }, ([] : Ledger)) ∧
    ((call_claude default_config "2025-01" (.err "boom") "p"
        [("2025-01", ⟨1, 1⟩)]).1.fallback? = some true ∧
      (call_claude default_config "2025-01" (.err "boom") "p"
        [("2025-01", ⟨1, 1⟩)]).2 = [("2025-01", ⟨1, 1⟩)]) ∧
    ((call_claude claudeConfig "2025-01" (.ok "fine") "p" []).1.success
        = true ∧
      (call_claude claudeConfig "2025-01" (.ok "fine") "p" []).2
        = update_budget claudeConfig "2025-01"
            (claude_cost claudeConfig "p" "fine") []) :=
  ⟨(c6_failure_semantics default_config "2025-01" (.ok "never sent") "p" []).1
     rfl,
   (c6_failure_semantics default_config "2025-01" (.err "boom") "p"
      [("2025-01", ⟨1, 1⟩)]).2.1 (by decide),
   (c6_failure_semantics claudeConfig "2025-01" (.ok "fine") "p" []).2.2
     "fine" rfl (by decide)⟩

/-- Claim C7 counterexample: an empty prompt is NOT rejected before any
backend call — the local backend is invoked (exactly once) and its
successful answer is returned. -/
theorem c7_counterexample :
    (route_request default_config "2025-01" [] "" none
        (.ok "u") (.ok "answer")).calls = [.ollamaCall] ∧
    (route_request default_config "2025-01" [] "" none
        (.ok "u") (.ok "answer")).result.success = true ∧
    (route_request default_config "2025-01" [] "" none
        (.ok "u") (.ok "answer")).result.response? = some "answer" := by
  have hd : routing_decision default_config "2025-01" [] "" none
      = (false, "Standard-Task - Ollama Standard") := by
    simp only [routing_decision]
    rw [if_neg (by simp), if_neg (by simp)]
    norm_num [should_escalate_to_claude, get_budget_status, default_config]
    decide
  refine ⟨?_, ?_, ?_⟩ <;> simp [route_request, hd, call_ollama]

/-- Claim C7 as amended: `route_request` performs no prompt validation; an
empty prompt flows through the normal decision (which always chooses the
local backend for it, whatever the budget state) and the local backend's
result is returned with the usual attachments. -/
theorem c7_amended_no_validation (m : String) (ledger : Ledger)
    (co oo : CallOutcome) :
    (route_request default_config m ledger "" none co oo).calls
      = [.ollamaCall] ∧
    (route_request default_config m ledger "" none co oo).result
      = { call_ollama oo with
          budget_status? := some (get_budget_status default_config m ledger),
          routing_reason?
            := some (should_escalate_to_claude default_config m ledger "").2 }
      := by
  have hd1 : (should_escalate_to_claude default_config m ledger "").1
      = false := by
    simp only [should_escalate_to_claude]
    repeat' split
    all_goals simp_all
    all_goals revert ‹_›
    all_goals decide
  have hdec : routing_decision default_config m ledger "" none
      = should_escalate_to_claude default_config m ledger "" := by
    simp only [routing_decision]
    rw [if_neg (by simp), if_neg (by simp)]
  constructor <;> simp [route_request, hdec, hd1]

/-- Claim C8: a successful paid call estimates `len // 4` tokens on both
sides, computes `cost = input_tokens * input_rate + output_tokens *
output_rate`, and records exactly that cost via `update_budget`; with rates
(3e-6, 15e-6) and 100/50 tokens the cost is exactly 0.00105 = 21/20000
(floats are modelled as exact rationals). -/
theorem c8_cost_formula (cfg : Config) (m : String) (prompt text : String)
    (ledger : Ledger) (hk : cfg.claude_api_key ≠ "") :
    (call_claude cfg m (.ok text) prompt ledger).1.success = true ∧
    (call_claude cfg m (.ok text) prompt ledger).1.tokens?
      = some (prompt.data.length / 4, text.data.length / 4) ∧
    (call_claude cfg m (.ok text) prompt ledger).1.cost?
      = some (claude_cost cfg prompt text) ∧
    (call_claude cfg m (.ok text) prompt ledger).2
      = update_budget cfg m (claude_cost cfg prompt text) ledger ∧
    (cfg.cost_per_input_token = 3 / 1000000 →
      cfg.cost_per_output_token = 15 / 1000000 →
      prompt.data.length = 400 → text.data.length = 200 →
      (call_claude cfg m (.ok text) prompt ledger).1.cost?
        = some (21 / 20000)) := by
  refine ⟨by simp [call_claude, hk], by simp [call_claude, hk],
    by simp [call_claude, hk], by simp [call_claude, hk], ?_⟩
  intro hri hro hip hot
  simp only [call_claude, if_neg hk]
  simp [claude_cost, hri, hro, hip, hot]
  norm_num

theorem c8_witness :
    (call_claude claudeConfig "2025-01"
        (.ok (String.mk (List.replicate 200 'b')))
        (String.mk (List.replicate 400 'a')) []).1.cost?
      = some (21 / 20000) :=
  (c8_cost_formula claudeConfig "2025-01" (String.mk (List.replicate 400 'a'))
      (String.mk (List.replicate 200 'b')) [] (by decide)).2.2.2.2
    rfl rfl (by simp) (by simp)

/-- Claim C9: a `force_model` value other than "ollama"/"claude" is silently
ignored: `route_request` behaves exactly as with no forced backend. -/
theorem c9_unknown_force_ignored (cfg : Config) (m : String) (ledger : Ledger)
    (prompt : String) (s : String) (co oo : CallOutcome)
    (h1 : s ≠ "ollama") (h2 : s ≠ "claude") :
    route_request cfg m ledger prompt (some s) co oo
      = route_request cfg m ledger prompt none co oo := by
  have d : routing_decision cfg m ledger prompt (some s)
      = routing_decision cfg m ledger prompt none := by
    simp only [routing_decision]
    rw [if_neg (by simp [h1]), if_neg (by simp [h2]), if_neg (by simp),
      if_neg (by simp)]
  simp only [route_request, d]

theorem c9_witness :
    route_request default_config "2025-01" [] "hello" (some "Claude")
        (.ok "a") (.ok "b")
      = route_request default_config "2025-01" [] "hello" none
        (.ok "a") (.ok "b") :=
  c9_unknown_force_ignored _ _ _ _ _ _ _ (by decide) (by decide)

/-- Claim C10: when the persisted ledger already holds 3 month keys
lexicographically greater than the current month's key, `update_budget`
prunes away the entry it just updated for the current month, and a
subsequent `get_budget_status` reports zero spent and zero requests for the
current month. -/
theorem c10_prune_drops_current_month (e1 e2 e3 : BudgetEntry) (c : ℚ) :
    (update_budget default_config "2025-12" c
        [("2026-01", e1), ("2026-02", e2), ("2026-03", e3)]).map Prod.fst
      = ["2026-01", "2026-02", "2026-03"] ∧
    (update_budget default_config "2025-12" c
        [("2026-01", e1), ("2026-02", e2), ("2026-03", e3)]).lookup "2025-12"
      = none ∧
    (get_budget_status default_config "2025-12"
        (update_budget default_config "2025-12" c
          [("2026-01", e1), ("2026-02", e2), ("2026-03", e3)])).spent = 0 ∧
    (get_budget_status default_config "2025-12"
        (update_budget default_config "2025-12" c
          [("2026-01", e1), ("2026-02", e2), ("2026-03", e3)])).requests
      = 0 := by
  have hl : update_budget default_config "2025-12" c
      [("2026-01", e1), ("2026-02", e2), ("2026-03", e3)]
      = [("2026-01", e1), ("2026-02", e2), ("2026-03", e3)] := by
    simp +decide [update_budget, bump, get_budget_status, update_entry,
      List.insertionSort, List.orderedInsert, List.lookup_cons, strLe, lexLe]
  rw [hl]
  refine ⟨rfl, ?_, ?_, ?_⟩ <;>
    simp +decide [get_budget_status, List.lookup_cons]

end SmartRouter
